import Mathlib

/-!
Shallow embedding of the risk-feature computation and scoring pipeline of the
home-risk-check backend (app/services/risk_calculator.py,
app/services/feature_service.py, app/services/price_service.py).

Numbers are modelled as rationals (`ℚ`); Python float literals such as 1.26
become the exact rationals they denote.  Python's total `x / 0` failure mode
is noted where it matters: rational division in Lean returns 0 on a zero
denominator, while Python raises ZeroDivisionError; each theorem touching a
possibly-zero denominator records which situation it is in.

Calls to the external pandas date parser (`pd.to_datetime` combined with
`datetime.now()` and `.days`) are modelled by an oracle
`String → Option ℚ` giving the number of elapsed days for a string the
parser accepts, and `none` where the parser fails (NaT / exception).
-/

namespace HomeRisk

/-- Python's substring test `kw in s`, phrased over character lists:
does `kw` occur as a contiguous run inside the list? -/
def charsPrefixOf : List Char → List Char → Bool
  | [], _ => true
  | _ :: _, [] => false
  | a :: as, b :: bs => a == b && charsPrefixOf as bs

/-- Auxiliary scan for `strIncludes`: try `charsPrefixOf` at every suffix. -/
def charsContains (kw : List Char) : List Char → Bool
  | [] => charsPrefixOf kw []
  | b :: bs => charsPrefixOf kw (b :: bs) || charsContains kw bs

/-- Python `kw in s` for strings. -/
def strIncludes (s kw : String) : Bool :=
  charsContains kw.data s.data

/-- numpy's `np.clip(x, lo, hi) = min(max(x, lo), hi)`. -/
def clip (x lo hi : ℚ) : ℚ :=
  min (max x lo) hi

/-- Drop characters satisfying `p` from both ends of a character list. -/
def trimChars (p : Char → Bool) (cs : List Char) : List Char :=
  ((cs.dropWhile p).reverse.dropWhile p).reverse

/-- Python `str.strip()`: remove surrounding whitespace. -/
def pyStrip (s : String) : String :=
  ⟨trimChars (fun c => c.isWhitespace) s.data⟩

/-- Python `str.strip('-')`: remove surrounding hyphens. -/
def stripDashes (s : String) : String :=
  ⟨trimChars (fun c => c == '-') s.data⟩

/-- Python `s.replace('.', '-').replace('/', '-')`: single-character
replacement is a character-wise map. -/
def replaceDelims (s : String) : String :=
  ⟨s.data.map (fun c => if c == '.' || c == '/' then '-' else c)⟩

/-- The delimiter normalisation feature_service.py applies to a raw
usage-approval date before handing it to the pandas parser
(feature_service.py lines 63-67). -/
def normalizeDate (s : String) : String :=
  stripDashes (replaceDelims (pyStrip s))

/-- The fixed-shape feature record both calculators return
(risk_calculator.py lines 157-170, feature_service.py lines 99-111). -/
structure RiskFeatures where
  jeonse_ratio : ℚ
  hug_risk_ratio : ℚ
  total_risk_ratio : ℚ
  estimated_loan_ratio : ℚ
  building_age : ℚ
  is_illegal : ℚ
  parking_per_household : ℚ
  is_micro_complex : ℚ
  is_trust_owner : ℚ
  short_term_weight : ℚ
  real_debt : ℚ
  type_APT : ℚ
  type_OFFICETEL : ℚ
  type_VILLA : ℚ
  type_ETC : ℚ
deriving DecidableEq

/-- The fields of the `building_info` dict risk_calculator.py reads.  A
missing or `None` string field is modelled as `""` (both are falsy in the
Python truthiness tests the code performs); numeric fields that may be
absent are `Option ℚ`. -/
structure BuildingInfo where
  owner_name : String
  ownership_changed_date : String
  main_use : String
  use_apr_day : String
  household_cnt : Option ℚ
  parking_cnt : Option ℚ
  is_violating_building : String
deriving DecidableEq

/-- The fields of the `ocr_features` dict risk_calculator.py reads
(each `.get(key, 0)` / `.get(key, '')` default is the field's neutral
value). -/
structure OcrFeatures where
  real_debt_manwon : ℚ
  is_trust_owner : ℚ
  short_term_weight : ℚ
  main_use : String
  usage_approval_date : String
  is_illegal : ℚ
deriving DecidableEq

/-- Empty `building_info` dict (every lookup takes its default). -/
def emptyBuildingInfo : BuildingInfo :=
  ⟨"", "", "", "", none, none, ""⟩

/-- Empty `ocr_features` dict (every lookup takes its default). -/
def emptyOcrFeatures : OcrFeatures :=
  ⟨0, 0, 0, "", "", 0⟩

namespace RiskCalculator

/-- risk_calculator.py `calculate_risk_features` (lines 58-172), the
serving-path feature calculator.  `daysSince s` models
`(datetime.now() - pd.to_datetime(s)).days`; `none` models a parse
failure (which the source catches, keeping the preceding default). -/
def calculate_risk_features (daysSince : String → Option ℚ)
    (deposit_manwon market_price_manwon public_price_won : ℚ)
    (bi : BuildingInfo) (ocr : OcrFeatures) : RiskFeatures :=
  -- 1. jeonse ratio
  let jeonse_ratio := if market_price_manwon > 0 then deposit_manwon / market_price_manwon else 0
  -- 2. HUG risk ratio
  let hug_limit := if public_price_won > 0 then public_price_won * 1.26 / 10000 else market_price_manwon
  let hug_risk_ratio := if hug_limit > 0 then deposit_manwon / hug_limit else 0
  -- 3. total risk ratio including senior debt
  let real_debt := ocr.real_debt_manwon
  let total_risk_ratio :=
    if market_price_manwon > 0 then (deposit_manwon + real_debt) / market_price_manwon else 0
  -- 4. trust ownership (`ocr or owner-name keyword`)
  let is_trust :=
    if ocr.is_trust_owner ≠ 0 then ocr.is_trust_owner
    else if strIncludes bi.owner_name "신탁" then 1 else 0
  -- 5. short-term ownership weight
  let stw0 := ocr.short_term_weight
  let short_term_weight :=
    if stw0 = 0 ∧ bi.ownership_changed_date ≠ "" then
      match daysSince bi.ownership_changed_date with
      | none => stw0
      | some d => if d < 90 then 0.3 else if d < 730 then 0.1 else stw0
    else stw0
  -- 6. building-type weight
  let main_use := if bi.main_use = "" then ocr.main_use else bi.main_use
  let type_weight : ℚ :=
    if strIncludes main_use "근린" then 0.4
    else if strIncludes main_use "다세대" || strIncludes main_use "오피스텔" ||
        strIncludes main_use "연립" then 0.1
    else 0
  -- 7. qualitative risk score
  let risk_score_val := clip (type_weight + short_term_weight + (if is_trust ≠ 0 then 0.5 else 0)) 0 1
  -- 8. building age (default 10)
  let use_apr_day := if bi.use_apr_day = "" then ocr.usage_approval_date else bi.use_apr_day
  let building_age : ℚ :=
    if use_apr_day ≠ "" then
      match daysSince use_apr_day with
      | none => 10
      | some d => d / 365.25
    else 10
  -- 9. remaining features
  let hc0 := match bi.household_cnt with
    | none => (1 : ℚ)
    | some x => if x = 0 then 1 else x
  let household_cnt := if hc0 < 1 then 1 else hc0
  let parking_per_household := (bi.parking_cnt.getD 0) / household_cnt
  let is_micro_complex : ℚ := if household_cnt < 100 then 1 else 0
  let is_illegal :=
    if ocr.is_illegal ≠ 0 then ocr.is_illegal
    else if pyStrip bi.is_violating_building = "Y" then 1 else 0
  -- 10. one-hot encoding of the building type
  let tAPT : ℚ := if strIncludes main_use "아파트" then 1 else 0
  let tOFF : ℚ := if strIncludes main_use "아파트" then 0
    else if strIncludes main_use "오피스텔" then 1 else 0
  let tVILLA : ℚ := if strIncludes main_use "아파트" then 0
    else if strIncludes main_use "오피스텔" then 0
    else if strIncludes main_use "다세대" || strIncludes main_use "연립" then 1 else 0
  let tETC : ℚ := if strIncludes main_use "아파트" then 0
    else if strIncludes main_use "오피스텔" then 0
    else if strIncludes main_use "다세대" || strIncludes main_use "연립" then 0 else 1
  ⟨jeonse_ratio, hug_risk_ratio, total_risk_ratio, risk_score_val, building_age,
    is_illegal, parking_per_household, is_micro_complex, is_trust, short_term_weight,
    real_debt, tAPT, tOFF, tVILLA, tETC⟩

end RiskCalculator

namespace FeatureService

/-- feature_service.py `calculate_risk_features` (lines 14-113), the
training-side feature calculator.  `pdToDatetimeDays s` models
`(datetime.now() - pd.to_datetime(s, errors='coerce')).days`, with `none`
for NaT.  Note: when the (possibly substituted) market price is zero the
source raises ZeroDivisionError; rational division totalises those ratios
as 0.  The record's `real_debt` slot is not produced by this source
function; it is populated with the `real_debt` argument so both
calculators share one record type. -/
def calculate_risk_features (pdToDatetimeDays : String → Option ℚ)
    (deposit_amount market_price real_debt : ℚ)
    (main_use usage_approval_date : String)
    (is_illegal is_trust_owner short_term_weight : ℚ)
    (parking_count household_count : ℚ) : RiskFeatures :=
  -- 1. defensive fallback when the market price is missing
  let market_price := if market_price ≤ 0 then deposit_amount * 1.25 else market_price
  -- 2. ratio features
  let jeonse_ratio := deposit_amount / market_price
  let total_risk_ratio := (deposit_amount + real_debt) / market_price
  let est_public_price := market_price * 0.7
  let hug_limit := est_public_price * 1.26
  let hug_risk_ratio := if hug_limit > 0 then deposit_amount / hug_limit else 0
  -- 3. qualitative risk score
  let type_w : ℚ :=
    if strIncludes main_use "근린" then 0.4
    else if strIncludes main_use "다세대" || strIncludes main_use "연립" ||
        strIncludes main_use "오피스텔" || strIncludes main_use "빌라" then 0.1
    else 0
  let risk_score_val := clip (type_w + short_term_weight + (if is_trust_owner ≠ 0 then 0.5 else 0)) 0 1
  -- 4. building age (starts at 0; only a failed parse of a non-empty date
  --    falls back to 10)
  let building_age : ℚ :=
    if usage_approval_date ≠ "" then
      match pdToDatetimeDays (normalizeDate usage_approval_date) with
      | some d => d / 365.25
      | none => 10
    else 0
  -- 5. one-hot encoding of the building type
  let tAPT : ℚ := if strIncludes main_use "아파트" then 1 else 0
  let tOFF : ℚ := if strIncludes main_use "아파트" then 0
    else if strIncludes main_use "오피스텔" then 1 else 0
  let tVILLA : ℚ := if strIncludes main_use "아파트" then 0
    else if strIncludes main_use "오피스텔" then 0
    else if strIncludes main_use "다세대" || strIncludes main_use "연립" ||
        strIncludes main_use "빌라" then 1 else 0
  let tETC : ℚ := if strIncludes main_use "아파트" then 0
    else if strIncludes main_use "오피스텔" then 0
    else if strIncludes main_use "다세대" || strIncludes main_use "연립" ||
        strIncludes main_use "빌라" then 0 else 1
  let parking_per_household := if household_count > 0 then parking_count / household_count else 0
  let is_micro_complex : ℚ := if household_count < 100 then 1 else 0
  ⟨jeonse_ratio, hug_risk_ratio, total_risk_ratio, risk_score_val, building_age,
    is_illegal, parking_per_household, is_micro_complex, is_trust_owner, short_term_weight,
    real_debt, tAPT, tOFF, tVILLA, tETC⟩

end FeatureService

namespace RiskCalculator

/-- risk_calculator.py `_rule_based_prediction` (lines 214-234): the
deterministic fallback used whenever no classifier model is available. -/
def rule_based_prediction (f : RiskFeatures) : ℚ :=
  let prob : ℚ := 0
  let prob :=
    if f.jeonse_ratio ≥ 0.8 then max prob 0.8
    else if f.jeonse_ratio ≥ 0.7 then max prob 0.5
    else prob
  let prob :=
    if f.total_risk_ratio ≥ 0.9 then max prob 0.9
    else if f.total_risk_ratio ≥ 0.8 then max prob 0.7
    else prob
  let prob :=
    if f.is_trust_owner ≠ 0 ∧ f.short_term_weight > 0 then max prob 0.6
    else prob
  prob

/-- risk_calculator.py `determine_risk_level` (lines 237-252). -/
def determine_risk_level (prob : ℚ) : String :=
  if prob < 0.4 then "SAFE"
  else if prob < 0.7 then "CAUTION"
  else "RISKY"

/-- Severity labels used by `analyze_risk_factors`. -/
inductive Severity where
  | LOW
  | MEDIUM
  | HIGH
  | CRITICAL
deriving DecidableEq

/-- Risk-factor type labels used by `analyze_risk_factors`. -/
inductive FactorType where
  | HUG_INELIGIBLE
  | HIGH_LTV
  | SENIOR_DEBT
  | ILLEGAL_BUILDING
  | TRUST_PROPERTY
  | SHORT_OWNERSHIP
  | OLD_BUILDING
  | NONE
deriving DecidableEq

/-- One structured risk factor.  The source also attaches a human-readable
Korean message string; the message is presentation-only and is determined
by the (type, severity) pair together with numbers already in the feature
record, so it is not carried in the embedding. -/
structure RiskFactor where
  type : FactorType
  severity : Severity
deriving DecidableEq

/-- risk_calculator.py `analyze_risk_factors` (lines 258-348). -/
def analyze_risk_factors (f : RiskFeatures) (is_hug_safe : Bool) : List RiskFactor :=
  let l1 : List RiskFactor := if is_hug_safe then [] else [⟨.HUG_INELIGIBLE, .CRITICAL⟩]
  let l2 : List RiskFactor :=
    if f.jeonse_ratio > 0.8 then [⟨.HIGH_LTV, .HIGH⟩]
    else if f.jeonse_ratio > 0.7 then [⟨.HIGH_LTV, .MEDIUM⟩]
    else []
  let l3 : List RiskFactor := if f.real_debt > 0 then [⟨.SENIOR_DEBT, .HIGH⟩] else []
  let l4 : List RiskFactor := if f.is_illegal ≠ 0 then [⟨.ILLEGAL_BUILDING, .HIGH⟩] else []
  let l5 : List RiskFactor := if f.is_trust_owner ≠ 0 then [⟨.TRUST_PROPERTY, .MEDIUM⟩] else []
  let l6 : List RiskFactor :=
    if f.short_term_weight > 0 then
      [⟨.SHORT_OWNERSHIP, if f.short_term_weight ≥ 0.3 then .HIGH else .MEDIUM⟩]
    else []
  let l7 : List RiskFactor := if f.building_age > 30 then [⟨.OLD_BUILDING, .LOW⟩] else []
  let factors := l1 ++ l2 ++ l3 ++ l4 ++ l5 ++ l6 ++ l7
  if factors.isEmpty then [⟨.NONE, .LOW⟩] else factors

end RiskCalculator

namespace PriceService

/-- The result triple of `calculate_hug_eligibility`. -/
structure HugEligibility where
  is_eligible : Bool
  hug_limit : ℚ
  message : String
deriving DecidableEq

/-- price_service.py `calculate_hug_eligibility` (lines 479-503):
`public_price` is in won, `deposit_manwon` in ten-thousand-won units. -/
def calculate_hug_eligibility (public_price deposit_manwon : ℚ) : HugEligibility :=
  if public_price ≤ 0 then ⟨false, 0, "공시가 없음 (판단 불가)"⟩
  else
    let hug_limit_won := public_price * 1.26
    let hug_limit_manwon := hug_limit_won / 10000
    if deposit_manwon ≤ hug_limit_manwon then ⟨true, hug_limit_manwon, "가입 가능 (안전 OK)"⟩
    else ⟨false, hug_limit_manwon, "가입 불가 (위험 NO)"⟩

end PriceService

end HomeRisk

namespace HomeRisk

/-- C1: for every call to the risk-feature calculator with deposit ≥ 0,
market price > 0 and senior debt ≥ 0, the returned feature record satisfies
total_risk_ratio ≥ jeonse_ratio.  Proved for both implementations
(risk_calculator.py and feature_service.py). -/
theorem c1_total_risk_ratio_ge_jeonse_ratio
    (daysSince pdParse : String → Option ℚ) (d m p debt : ℚ)
    (bi : BuildingInfo) (ocr : OcrFeatures)
    (mu uad : String) (ill trust stw pc hc : ℚ)
    (hd : 0 ≤ d) (hm : 0 < m)
    (hdebt1 : 0 ≤ ocr.real_debt_manwon) (hdebt2 : 0 ≤ debt) :
    (RiskCalculator.calculate_risk_features daysSince d m p bi ocr).jeonse_ratio ≤
      (RiskCalculator.calculate_risk_features daysSince d m p bi ocr).total_risk_ratio
    ∧ (FeatureService.calculate_risk_features pdParse d m debt mu uad ill trust stw pc hc).jeonse_ratio ≤
      (FeatureService.calculate_risk_features pdParse d m debt mu uad ill trust stw pc hc).total_risk_ratio := by
  constructor
  · simp only [RiskCalculator.calculate_risk_features]
    rw [if_pos hm, if_pos hm]
    rw [div_le_div_iff_of_pos_right hm]
    linarith
  · simp only [FeatureService.calculate_risk_features]
    rw [if_neg (not_le.mpr hm)]
    rw [div_le_div_iff_of_pos_right hm]
    linarith

/-- Witness for C1 at deposit 100, market price 200, senior debt 0. -/
theorem c1_total_risk_ratio_ge_jeonse_ratio_witness :
    0 ≤ (100 : ℚ) ∧ 0 < (200 : ℚ) ∧ 0 ≤ emptyOcrFeatures.real_debt_manwon ∧ 0 ≤ (0 : ℚ) ∧
    (RiskCalculator.calculate_risk_features (fun _ => none) 100 200 0
        emptyBuildingInfo emptyOcrFeatures).jeonse_ratio ≤
      (RiskCalculator.calculate_risk_features (fun _ => none) 100 200 0
        emptyBuildingInfo emptyOcrFeatures).total_risk_ratio :=
  ⟨by decide, by decide, by decide, by decide,
    (c1_total_risk_ratio_ge_jeonse_ratio (fun _ => none) (fun _ => none) 100 200 0 0
      emptyBuildingInfo emptyOcrFeatures "" "" 0 0 0 0 1
      (by decide) (by decide) (by decide) (by decide)).1⟩

/-- C2: for every input, the feature record returned by either risk-feature
calculator has exactly one of type_APT, type_OFFICETEL, type_VILLA, type_ETC
equal to 1 and the other three equal to 0. -/
theorem c2_building_type_one_hot
    (daysSince pdParse : String → Option ℚ) (d m p debt : ℚ)
    (bi : BuildingInfo) (ocr : OcrFeatures)
    (mu uad : String) (ill trust stw pc hc : ℚ) :
    ((RiskCalculator.calculate_risk_features daysSince d m p bi ocr).type_APT = 1 ∧
      (RiskCalculator.calculate_risk_features daysSince d m p bi ocr).type_OFFICETEL = 0 ∧
      (RiskCalculator.calculate_risk_features daysSince d m p bi ocr).type_VILLA = 0 ∧
      (RiskCalculator.calculate_risk_features daysSince d m p bi ocr).type_ETC = 0 ∨
     (RiskCalculator.calculate_risk_features daysSince d m p bi ocr).type_APT = 0 ∧
      (RiskCalculator.calculate_risk_features daysSince d m p bi ocr).type_OFFICETEL = 1 ∧
      (RiskCalculator.calculate_risk_features daysSince d m p bi ocr).type_VILLA = 0 ∧
      (RiskCalculator.calculate_risk_features daysSince d m p bi ocr).type_ETC = 0 ∨
     (RiskCalculator.calculate_risk_features daysSince d m p bi ocr).type_APT = 0 ∧
      (RiskCalculator.calculate_risk_features daysSince d m p bi ocr).type_OFFICETEL = 0 ∧
      (RiskCalculator.calculate_risk_features daysSince d m p bi ocr).type_VILLA = 1 ∧
      (RiskCalculator.calculate_risk_features daysSince d m p bi ocr).type_ETC = 0 ∨
     (RiskCalculator.calculate_risk_features daysSince d m p bi ocr).type_APT = 0 ∧
      (RiskCalculator.calculate_risk_features daysSince d m p bi ocr).type_OFFICETEL = 0 ∧
      (RiskCalculator.calculate_risk_features daysSince d m p bi ocr).type_VILLA = 0 ∧
      (RiskCalculator.calculate_risk_features daysSince d m p bi ocr).type_ETC = 1)
    ∧ ((FeatureService.calculate_risk_features pdParse d m debt mu uad ill trust stw pc hc).type_APT = 1 ∧
      (FeatureService.calculate_risk_features pdParse d m debt mu uad ill trust stw pc hc).type_OFFICETEL = 0 ∧
      (FeatureService.calculate_risk_features pdParse d m debt mu uad ill trust stw pc hc).type_VILLA = 0 ∧
      (FeatureService.calculate_risk_features pdParse d m debt mu uad ill trust stw pc hc).type_ETC = 0 ∨
     (FeatureService.calculate_risk_features pdParse d m debt mu uad ill trust stw pc hc).type_APT = 0 ∧
      (FeatureService.calculate_risk_features pdParse d m debt mu uad ill trust stw pc hc).type_OFFICETEL = 1 ∧
      (FeatureService.calculate_risk_features pdParse d m debt mu uad ill trust stw pc hc).type_VILLA = 0 ∧
      (FeatureService.calculate_risk_features pdParse d m debt mu uad ill trust stw pc hc).type_ETC = 0 ∨
     (FeatureService.calculate_risk_features pdParse d m debt mu uad ill trust stw pc hc).type_APT = 0 ∧
      (FeatureService.calculate_risk_features pdParse d m debt mu uad ill trust stw pc hc).type_OFFICETEL = 0 ∧
      (FeatureService.calculate_risk_features pdParse d m debt mu uad ill trust stw pc hc).type_VILLA = 1 ∧
      (FeatureService.calculate_risk_features pdParse d m debt mu uad ill trust stw pc hc).type_ETC = 0 ∨
     (FeatureService.calculate_risk_features pdParse d m debt mu uad ill trust stw pc hc).type_APT = 0 ∧
      (FeatureService.calculate_risk_features pdParse d m debt mu uad ill trust stw pc hc).type_OFFICETEL = 0 ∧
      (FeatureService.calculate_risk_features pdParse d m debt mu uad ill trust stw pc hc).type_VILLA = 0 ∧
      (FeatureService.calculate_risk_features pdParse d m debt mu uad ill trust stw pc hc).type_ETC = 1) := by
  constructor
  · simp only [RiskCalculator.calculate_risk_features]
    split_ifs <;> simp
  · simp only [FeatureService.calculate_risk_features]
    split_ifs <;> simp

end HomeRisk

namespace HomeRisk

/-- C3 counterexample: in risk_calculator.py the VILLA keyword list is only
{다세대, 연립}; a main_use equal to "빌라" (which contains "빌라" and none of
the higher-precedence keywords) is one-hot encoded as type_ETC = 1 with
type_VILLA = 0, contradicting the claimed keyword precedence. -/
theorem c3_counterexample_villa_keyword :
    (RiskCalculator.calculate_risk_features (fun _ => none) 1 2 0
        ⟨"", "", "빌라", "", none, none, ""⟩ emptyOcrFeatures).type_VILLA = 0 ∧
    (RiskCalculator.calculate_risk_features (fun _ => none) 1 2 0
        ⟨"", "", "빌라", "", none, none, ""⟩ emptyOcrFeatures).type_ETC = 1 := by
  constructor <;> decide

/-- C3 amended: the one-hot choice follows the keyword precedence
아파트 → 오피스텔 → VILLA keywords → ETC in both calculators, but the VILLA
keyword set differs: feature_service.py matches any of {다세대, 연립, 빌라},
while risk_calculator.py matches only {다세대, 연립}, so there a main_use
containing only "빌라" falls through to type_ETC. -/
theorem c3_one_hot_keyword_precedence
    (pdParse : String → Option ℚ) (d m debt : ℚ) (mu uad : String)
    (ill trust stw pc hc : ℚ) :
    (strIncludes mu "아파트" = true →
      (FeatureService.calculate_risk_features pdParse d m debt mu uad ill trust stw pc hc).type_APT = 1 ∧
      (RiskCalculator.calculate_risk_features (fun _ => none) d m 0
        ⟨"", "", mu, "", none, none, ""⟩ emptyOcrFeatures).type_APT = 1)
    ∧ (strIncludes mu "아파트" = false → strIncludes mu "오피스텔" = true →
      (FeatureService.calculate_risk_features pdParse d m debt mu uad ill trust stw pc hc).type_OFFICETEL = 1 ∧
      (RiskCalculator.calculate_risk_features (fun _ => none) d m 0
        ⟨"", "", mu, "", none, none, ""⟩ emptyOcrFeatures).type_OFFICETEL = 1)
    ∧ (strIncludes mu "아파트" = false → strIncludes mu "오피스텔" = false →
      (strIncludes mu "다세대" || strIncludes mu "연립" || strIncludes mu "빌라") = true →
      (FeatureService.calculate_risk_features pdParse d m debt mu uad ill trust stw pc hc).type_VILLA = 1)
    ∧ (strIncludes mu "아파트" = false → strIncludes mu "오피스텔" = false →
      (strIncludes mu "다세대" || strIncludes mu "연립") = true →
      (RiskCalculator.calculate_risk_features (fun _ => none) d m 0
        ⟨"", "", mu, "", none, none, ""⟩ emptyOcrFeatures).type_VILLA = 1)
    ∧ (strIncludes mu "아파트" = false → strIncludes mu "오피스텔" = false →
      strIncludes mu "다세대" = false → strIncludes mu "연립" = false →
      strIncludes mu "빌라" = true →
      (RiskCalculator.calculate_risk_features (fun _ => none) d m 0
        ⟨"", "", mu, "", none, none, ""⟩ emptyOcrFeatures).type_VILLA = 0 ∧
      (RiskCalculator.calculate_risk_features (fun _ => none) d m 0
        ⟨"", "", mu, "", none, none, ""⟩ emptyOcrFeatures).type_ETC = 1)
    ∧ (strIncludes mu "아파트" = false → strIncludes mu "오피스텔" = false →
      strIncludes mu "다세대" = false → strIncludes mu "연립" = false →
      strIncludes mu "빌라" = false →
      (FeatureService.calculate_risk_features pdParse d m debt mu uad ill trust stw pc hc).type_ETC = 1 ∧
      (RiskCalculator.calculate_risk_features (fun _ => none) d m 0
        ⟨"", "", mu, "", none, none, ""⟩ emptyOcrFeatures).type_ETC = 1) := by
  have hmu : (if mu = "" then emptyOcrFeatures.main_use else mu) = mu := by
    by_cases h : mu = "" <;> simp [emptyOcrFeatures, h]
  refine ⟨?_, ?_, ?_, ?_, ?_, ?_⟩
  · intro h1
    constructor <;> simp [FeatureService.calculate_risk_features,
      RiskCalculator.calculate_risk_features, hmu, h1]
  · intro h1 h2
    constructor <;> simp [FeatureService.calculate_risk_features,
      RiskCalculator.calculate_risk_features, hmu, h1, h2]
  · intro h1 h2 h3
    simp [FeatureService.calculate_risk_features, h1, h2, h3]
  · intro h1 h2 h3
    simp [RiskCalculator.calculate_risk_features, hmu, h1, h2, h3]
  · intro h1 h2 h3 h4 h5
    constructor <;> simp [RiskCalculator.calculate_risk_features, hmu, h1, h2, h3, h4]
  · intro h1 h2 h3 h4 h5
    constructor <;> simp [FeatureService.calculate_risk_features,
      RiskCalculator.calculate_risk_features, hmu, h1, h2, h3, h4, h5]

/-- Witness for C3 amended at main_use = "빌라주택": feature_service encodes
VILLA, risk_calculator encodes ETC. -/
theorem c3_one_hot_keyword_precedence_witness :
    strIncludes "빌라주택" "아파트" = false ∧ strIncludes "빌라주택" "오피스텔" = false ∧
    strIncludes "빌라주택" "다세대" = false ∧ strIncludes "빌라주택" "연립" = false ∧
    strIncludes "빌라주택" "빌라" = true ∧
    ((RiskCalculator.calculate_risk_features (fun _ => none) 1 2 0
        ⟨"", "", "빌라주택", "", none, none, ""⟩ emptyOcrFeatures).type_VILLA = 0 ∧
      (RiskCalculator.calculate_risk_features (fun _ => none) 1 2 0
        ⟨"", "", "빌라주택", "", none, none, ""⟩ emptyOcrFeatures).type_ETC = 1) :=
  ⟨by decide, by decide, by decide, by decide, by decide,
    (c3_one_hot_keyword_precedence (fun _ => none) 1 2 0 "빌라주택" "" 0 0 0 0 1).2.2.2.2.1
      (by decide) (by decide) (by decide) (by decide) (by decide)⟩

end HomeRisk

namespace HomeRisk

/-- C4 counterexample: feature_service.py's calculator has no assessed-price
input at all — it always estimates a public price as market_price × 0.7
(lines 41-44), so its hug_risk_ratio at deposit 10000, market price 30000 is
10000 / (30000 × 0.7 × 1.26) and not the claimed deposit / market_price. -/
theorem c4_counterexample_feature_service_hug :
    (FeatureService.calculate_risk_features (fun _ => none) 10000 30000 0 "" "" 0 0 0 0 0).hug_risk_ratio
      = 10000 / ((30000 : ℚ) * 0.7 * 1.26) ∧
    (FeatureService.calculate_risk_features (fun _ => none) 10000 30000 0 "" "" 0 0 0 0 0).hug_risk_ratio
      ≠ 10000 / (30000 : ℚ) := by
  constructor <;> norm_num [FeatureService.calculate_risk_features]

/-- C4 amended: in risk_calculator.py, with a positive assessed (public)
price, hug_risk_ratio is the deposit divided by the unit-converted HUG limit
public_price × 1.26 / 10000, and with a non-positive assessed price it is
deposit / market_price; feature_service.py's calculator instead takes no
assessed price and always uses the estimate market_price × 0.7, so its
hug_risk_ratio is deposit / (market_price × 0.7 × 1.26).  The hypothesis
0 < m reflects both call sites of risk_calculator's function, which reject a
non-positive market price before calling it (predict_service.py lines 97-98
and 192-198). -/
theorem c4_hug_risk_ratio_cases
    (daysSince pdParse : String → Option ℚ) (d m p debt : ℚ)
    (bi : BuildingInfo) (ocr : OcrFeatures)
    (mu uad : String) (ill trust stw pc hc : ℚ) (hm : 0 < m) :
    (0 < p →
      (RiskCalculator.calculate_risk_features daysSince d m p bi ocr).hug_risk_ratio
        = d / (p * 1.26 / 10000))
    ∧ (p ≤ 0 →
      (RiskCalculator.calculate_risk_features daysSince d m p bi ocr).hug_risk_ratio
        = d / m)
    ∧ (FeatureService.calculate_risk_features pdParse d m debt mu uad ill trust stw pc hc).hug_risk_ratio
        = d / (m * 0.7 * 1.26) := by
  refine ⟨?_, ?_, ?_⟩
  · intro hp
    simp only [RiskCalculator.calculate_risk_features]
    rw [if_pos hp, if_pos (by positivity : (0:ℚ) < p * 1.26 / 10000)]
  · intro hp
    simp only [RiskCalculator.calculate_risk_features]
    rw [if_neg (not_lt.mpr hp), if_pos hm]
  · simp only [FeatureService.calculate_risk_features]
    rw [if_neg (not_le.mpr hm), if_pos (by positivity : (0:ℚ) < m * 0.7 * 1.26)]

/-- Witness for C4 amended at deposit 10000 (manwon), market price 30000
(manwon), assessed price 200000000 (won). -/
theorem c4_hug_risk_ratio_cases_witness :
    0 < (30000 : ℚ) ∧ 0 < (200000000 : ℚ) ∧
    (RiskCalculator.calculate_risk_features (fun _ => none) 10000 30000 200000000
        emptyBuildingInfo emptyOcrFeatures).hug_risk_ratio
      = 10000 / ((200000000 : ℚ) * 1.26 / 10000) ∧
    (FeatureService.calculate_risk_features (fun _ => none) 10000 30000 0 "" "" 0 0 0 0 0).hug_risk_ratio
      = 10000 / ((30000 : ℚ) * 0.7 * 1.26) :=
  ⟨by decide, by decide,
    (c4_hug_risk_ratio_cases (fun _ => none) (fun _ => none) 10000 30000 200000000 0
      emptyBuildingInfo emptyOcrFeatures "" "" 0 0 0 0 0 (by decide)).1 (by decide),
    (c4_hug_risk_ratio_cases (fun _ => none) (fun _ => none) 10000 30000 200000000 0
      emptyBuildingInfo emptyOcrFeatures "" "" 0 0 0 0 0 (by decide)).2.2⟩

/-- C5: the rule-based fallback probability is the maximum over the three
threshold rules (jeonse-ratio rule, total-risk-ratio rule, trust-and-short-term
rule), each contributing 0 when untriggered; and for Scenario A
(deposit 24000, market price 30000, no debt, no flags) the fallback
probability is 0.8 ≥ 0.8 and the derived risk level is RISKY. -/
theorem c5_rule_based_prediction_is_max_of_rules (f : RiskFeatures) :
    RiskCalculator.rule_based_prediction f =
      max (max (if f.jeonse_ratio ≥ 0.8 then (0.8 : ℚ)
                else if f.jeonse_ratio ≥ 0.7 then 0.5 else 0)
          (if f.total_risk_ratio ≥ 0.9 then (0.9 : ℚ)
                else if f.total_risk_ratio ≥ 0.8 then 0.7 else 0))
        (if f.is_trust_owner ≠ 0 ∧ f.short_term_weight > 0 then (0.6 : ℚ) else 0)
    ∧ RiskCalculator.rule_based_prediction
        (RiskCalculator.calculate_risk_features (fun _ => none) 24000 30000 0
          emptyBuildingInfo emptyOcrFeatures) ≥ 0.8
    ∧ RiskCalculator.determine_risk_level
        (RiskCalculator.rule_based_prediction
          (RiskCalculator.calculate_risk_features (fun _ => none) 24000 30000 0
            emptyBuildingInfo emptyOcrFeatures)) = "RISKY" := by
  have hscen : RiskCalculator.rule_based_prediction
      (RiskCalculator.calculate_risk_features (fun _ => none) 24000 30000 0
        emptyBuildingInfo emptyOcrFeatures) = 0.8 := by
    have h1 : strIncludes "" "신탁" = false := by decide
    norm_num [RiskCalculator.calculate_risk_features, RiskCalculator.rule_based_prediction,
      emptyBuildingInfo, emptyOcrFeatures, h1, max_def]
  refine ⟨?_, ?_, ?_⟩
  · simp only [RiskCalculator.rule_based_prediction]
    split_ifs <;> norm_num [max_def]
  · rw [hscen]
  · rw [hscen]
    norm_num [RiskCalculator.determine_risk_level]

end HomeRisk

namespace HomeRisk

/-- C6 counterexample: calling feature_service.py's calculator with
deposit = 0 and marketPrice = 0 substitutes 0 × 1.25 = 0 as the market price,
and the resulting jeonse_ratio is not 0.8 as claimed (in the embedding the
0 / 0 ratio is 0; the Python source raises ZeroDivisionError at this input,
which contradicts the claimed value just the same). -/
theorem c6_counterexample_zero_deposit :
    (FeatureService.calculate_risk_features (fun _ => none) 0 0 0 "" "" 0 0 0 0 0).jeonse_ratio
      ≠ 0.8 := by
  norm_num [FeatureService.calculate_risk_features]

/-- C6 amended: for marketPrice ≤ 0, feature_service.py's calculator
substitutes deposit × 1.25 for the market price before computing the ratio
features (the whole feature record equals the one computed from a market
price of deposit × 1.25), and with zero senior debt and a positive deposit
the resulting jeonse_ratio is 0.8.  (risk_calculator.py's twin has no such
substitution: its guarded ratios are 0 there.) -/
theorem c6_market_price_substitution
    (pdParse : String → Option ℚ) (d m debt : ℚ) (mu uad : String)
    (ill trust stw pc hc : ℚ) (hm : m ≤ 0) (hd : 0 < d) :
    FeatureService.calculate_risk_features pdParse d m debt mu uad ill trust stw pc hc =
      FeatureService.calculate_risk_features pdParse d (d * 1.25) debt mu uad ill trust stw pc hc
    ∧ (debt = 0 →
      (FeatureService.calculate_risk_features pdParse d m debt mu uad ill trust stw pc hc).jeonse_ratio
        = 0.8) := by
  have hsub : (if m ≤ 0 then d * 1.25 else m) = d * 1.25 := if_pos hm
  have hsub2 : (if d * 1.25 ≤ 0 then d * 1.25 else d * 1.25) = d * 1.25 := ite_self _
  constructor
  · simp only [FeatureService.calculate_risk_features, hsub, hsub2]
  · intro hdebt
    simp only [FeatureService.calculate_risk_features, hsub]
    have hne : d * 1.25 ≠ 0 := by positivity
    rw [div_eq_iff hne]
    ring_nf

/-- Witness for C6 amended at deposit 100, marketPrice 0, no senior debt. -/
theorem c6_market_price_substitution_witness :
    (0 : ℚ) ≤ 0 ∧ 0 < (100 : ℚ) ∧ (0 : ℚ) = 0 ∧
    (FeatureService.calculate_risk_features (fun _ => none) 100 0 0 "" "" 0 0 0 0 0).jeonse_ratio
      = 0.8 :=
  ⟨by decide, by decide, rfl,
    (c6_market_price_substitution (fun _ => none) 100 0 0 "" "" 0 0 0 0 0
      (by decide) (by decide)).2 rfl⟩

/-- C7 counterexample: in feature_service.py an absent (empty) usage-approval
date leaves building_age at its initial value 0, not at the claimed default
of 10 years. -/
theorem c7_counterexample_absent_date :
    (FeatureService.calculate_risk_features (fun _ => none) 1 2 0 "주택" "" 0 0 0 0 1).building_age
      = 0 ∧
    (FeatureService.calculate_risk_features (fun _ => none) 1 2 0 "주택" "" 0 0 0 0 1).building_age
      ≠ 10 := by
  constructor <;> norm_num [FeatureService.calculate_risk_features]

/-- C7 amended: in risk_calculator.py an absent usage-approval date or one the
date parser rejects yields the default building_age of 10 with no error; in
feature_service.py a non-empty date that fails to parse after delimiter
normalisation yields 10, but an absent (empty) date yields building_age 0. -/
theorem c7_building_age_defaults
    (daysSince pdParse : String → Option ℚ) (d m p debt : ℚ)
    (bi : BuildingInfo) (ocr : OcrFeatures)
    (mu s : String) (ill trust stw pc hc : ℚ) :
    ((if bi.use_apr_day = "" then ocr.usage_approval_date else bi.use_apr_day) = "" →
      (RiskCalculator.calculate_risk_features daysSince d m p bi ocr).building_age = 10)
    ∧ ((if bi.use_apr_day = "" then ocr.usage_approval_date else bi.use_apr_day) ≠ "" →
      daysSince (if bi.use_apr_day = "" then ocr.usage_approval_date else bi.use_apr_day) = none →
      (RiskCalculator.calculate_risk_features daysSince d m p bi ocr).building_age = 10)
    ∧ (s ≠ "" → pdParse (normalizeDate s) = none →
      (FeatureService.calculate_risk_features pdParse d m debt mu s ill trust stw pc hc).building_age = 10)
    ∧ (FeatureService.calculate_risk_features pdParse d m debt mu "" ill trust stw pc hc).building_age = 0 := by
  refine ⟨?_, ?_, ?_, ?_⟩
  · intro h
    simp [RiskCalculator.calculate_risk_features, h]
  · intro h hparse
    simp [RiskCalculator.calculate_risk_features, h, hparse]
  · intro h hparse
    simp [FeatureService.calculate_risk_features, h, hparse]
  · simp [FeatureService.calculate_risk_features]

/-- Witness for C7 amended: the unparseable date "없음" yields building_age 10
in both calculators (risk_calculator via `bi.use_apr_day`, feature_service via
its date argument). -/
theorem c7_building_age_defaults_witness :
    (if ("없음" : String) = "" then emptyOcrFeatures.usage_approval_date else "없음") ≠ "" ∧
    (fun _ : String => (none : Option ℚ))
        (if ("없음" : String) = "" then emptyOcrFeatures.usage_approval_date else "없음") = none ∧
    (RiskCalculator.calculate_risk_features (fun _ => none) 1 2 0
        ⟨"", "", "", "없음", none, none, ""⟩ emptyOcrFeatures).building_age = 10 :=
  ⟨by decide, rfl,
    (c7_building_age_defaults (fun _ => none) (fun _ => none) 1 2 0 0
        ⟨"", "", "", "없음", none, none, ""⟩ emptyOcrFeatures "" "없음" 0 0 0 0 1).2.1
      (by decide) rfl⟩

end HomeRisk

namespace HomeRisk

/-- C8: for every combination of inputs — including weight sums exceeding 1 —
the estimated_loan_ratio returned by either calculator lies in [0, 1],
because the score is clipped with np.clip(·, 0, 1.0). -/
theorem c8_estimated_loan_ratio_clipped
    (daysSince pdParse : String → Option ℚ) (d m p debt : ℚ)
    (bi : BuildingInfo) (ocr : OcrFeatures)
    (mu uad : String) (ill trust stw pc hc : ℚ) :
    (0 ≤ (RiskCalculator.calculate_risk_features daysSince d m p bi ocr).estimated_loan_ratio ∧
      (RiskCalculator.calculate_risk_features daysSince d m p bi ocr).estimated_loan_ratio ≤ 1)
    ∧ (0 ≤ (FeatureService.calculate_risk_features pdParse d m debt mu uad ill trust stw pc hc).estimated_loan_ratio ∧
      (FeatureService.calculate_risk_features pdParse d m debt mu uad ill trust stw pc hc).estimated_loan_ratio ≤ 1) := by
  constructor
  · constructor
    · simp only [RiskCalculator.calculate_risk_features, clip]
      exact le_min (le_max_right _ _) zero_le_one
    · simp only [RiskCalculator.calculate_risk_features, clip]
      exact min_le_right _ _
  · constructor
    · simp only [FeatureService.calculate_risk_features, clip]
      exact le_min (le_max_right _ _) zero_le_one
    · simp only [FeatureService.calculate_risk_features, clip]
      exact min_le_right _ _

/-- Helper: the append-then-sentinel pattern at the end of
`analyze_risk_factors` can never produce an empty list. -/
theorem fallback_ne_nil {α : Type} (L : List α) (x : α) :
    (if L.isEmpty = true then [x] else L) ≠ [] := by
  split
  · simp
  · next h => exact fun hc => h (by rw [hc]; rfl)

/-- C9: the risk-factor analyzer never returns an empty list, and when no
factor triggers (insurance eligible, jeonse_ratio ≤ 0.7, no senior debt, no
illegal-building flag, no trust ownership, zero short-term weight, building
age ≤ 30) it returns exactly the single NONE/LOW sentinel factor. -/
theorem c9_analyze_risk_factors_sentinel (f : RiskFeatures)
    (h1 : f.jeonse_ratio ≤ 0.7) (h2 : f.real_debt = 0) (h3 : f.is_illegal = 0)
    (h4 : f.is_trust_owner = 0) (h5 : f.short_term_weight = 0)
    (h6 : f.building_age ≤ 30) :
    (∀ (g : RiskFeatures) (b : Bool), RiskCalculator.analyze_risk_factors g b ≠ [])
    ∧ RiskCalculator.analyze_risk_factors f true = [⟨.NONE, .LOW⟩] := by
  constructor
  · intro g b
    simp only [RiskCalculator.analyze_risk_factors]
    exact fallback_ne_nil _ _
  · have c1 : ¬ (f.jeonse_ratio > 0.8) := not_lt.mpr (h1.trans (by norm_num))
    have c2 : ¬ (f.jeonse_ratio > 0.7) := not_lt.mpr h1
    have c3 : ¬ (f.real_debt > 0) := by simp [h2]
    have c6 : ¬ (f.short_term_weight > 0) := by simp [h5]
    have c7 : ¬ (f.building_age > 30) := not_lt.mpr h6
    simp [RiskCalculator.analyze_risk_factors, c1, c2, c3, h3, h4, c6, c7]

/-- Witness for C9 at a quiet feature record (jeonse ratio 0.7, building age
30, everything else zero). -/
theorem c9_analyze_risk_factors_sentinel_witness :
    (0.7 : ℚ) ≤ 0.7 ∧ (30 : ℚ) ≤ 30 ∧
    RiskCalculator.analyze_risk_factors
        (RiskFeatures.mk 0.7 0 0 0 30 0 0 0 0 0 0 0 0 0 1) true
      = [⟨.NONE, .LOW⟩] :=
  ⟨le_refl _, le_refl _,
    (c9_analyze_risk_factors_sentinel (RiskFeatures.mk 0.7 0 0 0 30 0 0 0 0 0 0 0 0 0 1)
      (le_refl _) rfl rfl rfl rfl (le_refl _)).2⟩

/-- C10: the insurance-eligibility check is eligible exactly when the
assessed public price is positive and the deposit (in manwon) does not exceed
public_price × 1.26 / 10000; a non-positive assessed price yields ineligible
with limit 0; and Scenario B (deposit 10000 manwon against assessed price
20000 manwon = 200000000 won) is eligible. -/
theorem c10_hug_eligibility_characterisation (p d : ℚ) :
    ((PriceService.calculate_hug_eligibility p d).is_eligible = true ↔
      0 < p ∧ d ≤ p * 1.26 / 10000)
    ∧ (p ≤ 0 → PriceService.calculate_hug_eligibility p d
        = ⟨false, 0, "공시가 없음 (판단 불가)"⟩)
    ∧ (PriceService.calculate_hug_eligibility 200000000 10000).is_eligible = true := by
  refine ⟨?_, ?_, ?_⟩
  · simp only [PriceService.calculate_hug_eligibility]
    split_ifs with h1 h2
    · exact iff_of_false (by simp) (fun hc => absurd hc.1 (not_lt.mpr h1))
    · exact iff_of_true rfl ⟨lt_of_not_le h1, h2⟩
    · exact iff_of_false (by simp) (fun hc => h2 hc.2)
  · intro hp
    simp only [PriceService.calculate_hug_eligibility]
    rw [if_pos hp]
  · norm_num [PriceService.calculate_hug_eligibility]

/-- Witness for C10 at assessed price -5 (no public price known). -/
theorem c10_hug_eligibility_characterisation_witness :
    (-5 : ℚ) ≤ 0 ∧
    PriceService.calculate_hug_eligibility (-5) 3
      = ⟨false, 0, "공시가 없음 (판단 불가)"⟩ :=
  ⟨by decide, (c10_hug_eligibility_characterisation (-5) 3).2.1 (by decide)⟩

end HomeRisk
